import Mathlib

/-!
Verification of the smart-parking-system core (`src/app.py`).

The Python module is shallowly embedded below.  Wall-clock timestamps are
modelled as exact rationals (seconds), money amounts as exact rationals
(the Python code computes with floats, which we idealise as exact real
arithmetic), hours-of-day as naturals.  Python strings are Lean `String`s.
Every definition mirrors the corresponding Python function; the embedded
names follow the source names.
-/

namespace SmartParking

/-! ### Configuration constants (`src/app.py` lines 19-24) -/

def TOTAL_SLOTS : ℕ := 100

def HOURLY_RATE : ℚ := 50

def FREE_HOURS : ℚ := 2

def PENALTY_RATE : ℚ := 100

/-- `PEAK_HOUR_MULTIPLIER = 1.5` (the float 1.5 is exactly 3/2). -/
def PEAK_HOUR_MULTIPLIER : ℚ := 3 / 2

/-- `PEAK_HOURS = [(7, 10), (17, 20)]`. -/
def PEAK_HOURS : List (ℕ × ℕ) := [(7, 10), (17, 20)]

/-! ### Python arithmetic primitives -/

/-- Python `int(x)` on a real value: truncation toward zero. -/
def pyInt (x : ℚ) : ℤ := if 0 ≤ x then ⌊x⌋ else -⌊-x⌋

/-- Python `x % 1`: the result has the sign of the (positive) modulus,
so `x % 1 = x - ⌊x⌋`, the fractional part. -/
def pymod1 (x : ℚ) : ℚ := x - ⌊x⌋

/-- Python division `a / b`, which raises `ZeroDivisionError` when `b = 0`;
the error outcome is `none`. -/
def pydiv (a b : ℚ) : Option ℚ := if b = 0 then none else some (a / b)

/-- Python `s.upper()` (ASCII upper-casing of the status labels). -/
def pyUpper (s : String) : String := ⟨s.data.map Char.toUpper⟩

/-! ### RateEngine (`is_peak_hour`, `get_dynamic_rate`, lines 89-98) -/

/-- `is_peak_hour`: the current hour matches some window `[start, end)`. -/
def is_peak_hour (currentHour : ℕ) : Bool :=
  PEAK_HOURS.any fun p => decide (p.1 ≤ currentHour) && decide (currentHour < p.2)

/-- `get_dynamic_rate`. -/
def get_dynamic_rate (currentHour : ℕ) : ℚ :=
  if is_peak_hour currentHour then HOURLY_RATE * PEAK_HOUR_MULTIPLIER else HOURLY_RATE

/-! ### Slot records (`parking_data` entries, lines 43-54) -/

/-- One value of the `parking_data` dict.  `entry_time` is a timestamp in
seconds (the Python code stores a formatted string and parses it back;
we keep the instant itself). -/
structure SlotDetails where
  status : String
  entry_time : Option ℚ
  zone : String
  vehicle_type : Option String
  license_plate : Option String
  customer_id : Option String
  is_reserved : Bool
  maintenance : Bool
deriving DecidableEq, Repr

/-- One row of the DataFrame built by `get_parking_data` (lines 215-233);
only the columns the core logic reads are kept (`Status` is the
upper-cased effective status, `_revenue`, `_fine`, `_duration_hours`,
`_is_reserved`, `_maintenance` are the hidden numeric columns). -/
structure Row where
  slotId : String
  zone : String
  status : String
  durationHours : ℚ
  revenue : ℚ
  fine : ℚ
  isReserved : Bool
  maintenance : Bool
deriving DecidableEq, Repr

/-- `total_hours = int(duration_hours) + (1 if duration_hours % 1 > 0 else 0)`
(line 202). -/
def total_hours (durationHours : ℚ) : ℤ :=
  pyInt durationHours + (if 0 < pymod1 durationHours then 1 else 0)

/-- The loop body of `get_parking_data` (lines 180-233) for one slot.
`now` is the current timestamp in seconds and `nowHour` its hour of day
(both come from the same `datetime.now()` call in the source). -/
def makeRow (slotId : String) (d : SlotDetails) (now : ℚ) (nowHour : ℕ) : Row :=
  let status := if d.maintenance then "maintenance" else d.status
  match d.entry_time with
  | some t =>
    if status = "occupied" then
      let duration_seconds := now - t
      let duration_hours := duration_seconds / 3600
      let th := total_hours duration_hours
      let current_rate := get_dynamic_rate nowHour
      let revenue := (th : ℚ) * current_rate
      let fine := if duration_hours > FREE_HOURS
        then ((th : ℚ) - FREE_HOURS) * PENALTY_RATE else 0
      ⟨slotId, d.zone, pyUpper status, duration_hours, revenue, fine,
        d.is_reserved, d.maintenance⟩
    else
      ⟨slotId, d.zone, pyUpper status, 0, 0, 0, d.is_reserved, d.maintenance⟩
  | none =>
      ⟨slotId, d.zone, pyUpper status, 0, 0, 0, d.is_reserved, d.maintenance⟩

/-- `get_parking_data` over a snapshot of the `parking_data` dict
(an insertion-ordered association list, keys `P001`, `P002`, ...). -/
def get_parking_data (pd : List (String × SlotDetails)) (now : ℚ) (nowHour : ℕ) :
    List Row :=
  pd.map fun kv => makeRow kv.1 kv.2 now nowHour

/-! ### StatisticsAggregator (`get_statistics`, lines 237-273) -/

/-- The deterministic fields of the dict returned by `get_statistics`.
`turnover_rate` and `avg_wait` are drawn from `random.uniform` in the
source (lines 253-258) and are deliberately not modelled. -/
structure Stats where
  occupied : ℕ
  available : ℕ
  reserved : ℕ
  maintenance : ℕ
  occupancy_rate : ℚ
  total_revenue : ℚ
  total_fines : ℚ
  total_earnings : ℚ
  avg_duration : ℚ
  overstay_count : ℕ
deriving DecidableEq, Repr

/-- `get_statistics` (lines 237-273, deterministic part). -/
def get_statistics (rows : List Row) : Stats :=
  let occupied := (rows.filter fun r => r.status == "OCCUPIED").length
  let available := (rows.filter fun r => r.status == "AVAILABLE").length
  let reserved := (rows.filter fun r => r.isReserved).length
  let maintenance := (rows.filter fun r => r.maintenance).length
  let occupancy_rate := ((occupied : ℚ) / (TOTAL_SLOTS : ℚ)) * 100
  let total_revenue := (rows.map fun r => r.revenue).sum
  let total_fines := (rows.map fun r => r.fine).sum
  let total_earnings := total_revenue + total_fines
  let occupiedRows := rows.filter fun r => r.status == "OCCUPIED"
  let avg_duration := if occupiedRows.length > 0
    then (occupiedRows.map fun r => r.durationHours).sum / (occupiedRows.length : ℚ)
    else 0
  let overstay_count := (rows.filter fun r => r.fine > 0).length
  ⟨occupied, available, reserved, maintenance, occupancy_rate,
    total_revenue, total_fines, total_earnings, avg_duration, overstay_count⟩

/-- The expression `(occupied / TOTAL_SLOTS) * 100` of line 243 with the
capacity as an explicit parameter and Python's `ZeroDivisionError`
made explicit (`none`).  In the source `TOTAL_SLOTS` is the fixed
constant `100`, so the error branch is unreachable there; this parametric
form is what the spec's zero-capacity sentence talks about. -/
def occupancy_rate_calc (occupied totalSlots : ℕ) : Option ℚ :=
  (pydiv (occupied : ℚ) (totalSlots : ℚ)).map fun q => q * 100

/-! ### AlertEngine (`check_alerts`, lines 134-175) -/

/-- One entry of the global `alerts` list.  Each constructor keeps the
numbers interpolated into the formatted message; the message template and
the `"%H:%M:%S"` timestamp string are presentation only. -/
inductive Alert where
  | critical (occupancyRate : ℚ)
  | warnOccupancy (occupancyRate : ℚ)
  | warnOverstay (count : ℕ) (totalFines : ℚ)
  | successMilestone (totalEarnings : ℚ)
  | infoPeak (rate : ℚ)
deriving DecidableEq, Repr

/-- `check_alerts` (lines 134-175).  The function assigns `alerts = []`
first, so the previous global list `prev` is discarded; the four rules
then append in the fixed source order. -/
def check_alerts (prev : List Alert) (stats : Stats) (nowHour : ℕ) : List Alert :=
  let _ := prev
  let a : List Alert := []
  let a := if stats.occupancy_rate > 85 then a ++ [.critical stats.occupancy_rate]
    else if stats.occupancy_rate > 70 then a ++ [.warnOccupancy stats.occupancy_rate]
    else a
  let a := if stats.overstay_count > 0
    then a ++ [.warnOverstay stats.overstay_count stats.total_fines] else a
  let a := if stats.total_earnings > 10000
    then a ++ [.successMilestone stats.total_earnings] else a
  let a := if is_peak_hour nowHour
    then a ++ [.infoPeak (get_dynamic_rate nowHour)] else a
  a

/-- Position of each alert rule in the source order of `check_alerts`. -/
def alertPriority : Alert → ℕ
  | .critical _ => 0
  | .warnOccupancy _ => 0
  | .warnOverstay _ _ => 1
  | .successMilestone _ => 2
  | .infoPeak _ => 3

/-! ### BookingAllocator slot selection -/

/-- Slot selection of `create_booking_api` (lines 365-380):
`available_df = df[df['Status'] == 'AVAILABLE']`, empty means
`No slots available`; with a zone preference the first row of the zone
restriction is used when nonempty, else the first available row.
Returns `(slot, selected_zone)`. -/
def selectSlot (rows : List Row) (zonePref : Option String) :
    Option (String × String) :=
  let avail := rows.filter fun r => r.status == "AVAILABLE"
  match avail with
  | [] => none
  | a0 :: _ =>
    match zonePref with
    | some z =>
      match avail.filter (fun r => r.zone == z) with
      | z0 :: _ => some (z0.slotId, z)
      | [] => some (a0.slotId, a0.zone)
    | none => some (a0.slotId, a0.zone)

/-- Slot selection of the dashboard callback `confirm_booking`
(lines 1040-1057); same choice of slot, structured with the
empty checks after the zone restriction. -/
def selectSlotConfirm (rows : List Row) (zonePref : Option String) :
    Option String :=
  let avail := rows.filter fun r => r.status == "AVAILABLE"
  match zonePref with
  | some z =>
    match avail.filter (fun r => r.zone == z) with
    | z0 :: _ => some z0.slotId
    | [] =>
      match avail with
      | a0 :: _ => some a0.slotId
      | [] => none
  | none =>
    match avail with
    | a0 :: _ => some a0.slotId
    | [] => none

/-- A slot is allocatable according to the spec (§4.5): effective status
Available, not reserved, not in maintenance.  Stated over the derived row,
whose `status` field is already the upper-cased effective status. -/
def specEligible (r : Row) : Bool :=
  r.status == "AVAILABLE" && !r.isReserved && !r.maintenance

/-! ### Bookings and checkout (`checkout_booking_api`, lines 464-497) -/

/-- A booking dict as created by `create_booking_api` / `confirm_booking`.
`checkout_time` is absent (`none`) until checkout. -/
structure Booking where
  id : String
  name : String
  slot : String
  duration : ℕ
  cost : ℚ
  status : String
  checkout_time : Option ℚ
deriving DecidableEq, Repr

/-- The mutable store: the `bookings` list and the `parking_data` dict
(insertion-ordered association list with unique keys). -/
structure SysState where
  bookings : List Booking
  parking_data : List (String × SlotDetails)
deriving DecidableEq, Repr

/-- Replace the first element satisfying `p` (Python mutates the object
found by `next(...)`, and dict writes update the single entry). -/
def updateFirst (p : α → Bool) (f : α → α) : List α → List α
  | [] => []
  | x :: xs => if p x then f x :: xs else x :: updateFirst p f xs

/-- Dict lookup in `parking_data` (`booking['slot'] in parking_data`). -/
def lookupSD : List (String × SlotDetails) → String → Option SlotDetails
  | [], _ => none
  | kv :: rest, key => if kv.1 == key then some kv.2 else lookupSD rest key

/-- Dict entry update in `parking_data`. -/
def updateSD (pd : List (String × SlotDetails)) (key : String)
    (f : SlotDetails → SlotDetails) : List (String × SlotDetails) :=
  updateFirst (fun kv => kv.1 == key) (fun kv => (kv.1, f kv.2)) pd

/-- The slot mutation of lines 482-486: clear the reservation, set the
status back to available, clear vehicle type and license plate.
(`entry_time` and `customer_id` are not touched by the source.) -/
def freeSlot (sd : SlotDetails) : SlotDetails :=
  { sd with is_reserved := false, status := "available",
            vehicle_type := none, license_plate := none }

inductive CheckoutResult where
  | notFound
  | notActive
  | success
deriving DecidableEq, Repr

/-- `checkout_booking_api` (lines 464-497). -/
def checkout (st : SysState) (bookingId : String) (now : ℚ) :
    CheckoutResult × SysState :=
  match st.bookings.find? (fun b => b.id == bookingId) with
  | none => (.notFound, st)
  | some b =>
    if b.status ≠ "active" then (.notActive, st)
    else
      let bookings := updateFirst (fun x => x.id == bookingId)
        (fun x => { x with status := "completed", checkout_time := some now })
        st.bookings
      let pd := match lookupSD st.parking_data b.slot with
        | some _ => updateSD st.parking_data b.slot freeSlot
        | none => st.parking_data
      (.success, ⟨bookings, pd⟩)

/-! ### Booking id generation (`booking_counter`, lines 66-68, 387-389, 1059-1061) -/

/-- Python `str(n)` for a natural number: its decimal digit characters. -/
def decRepr (n : ℕ) : List Char :=
  if n = 0 then ['0'] else (Nat.digits 10 n).reverse.map Nat.digitChar

/-- Python `s.zfill(w)`: pad on the left with `'0'` up to width `w`. -/
def zfill (w : ℕ) (s : List Char) : List Char :=
  List.replicate (w - s.length) '0' ++ s

/-- `booking_id = f"BK{str(booking_counter).zfill(4)}"`
(identical at lines 388 and 1060). -/
def bkId (counter : ℕ) : String :=
  ⟨['B', 'K'] ++ zfill 4 (decRepr counter)⟩

/-- Decimal value of a digit string (used to read the counter value
back out of a booking id). -/
def parseDigits (s : List Char) : ℕ :=
  s.foldl (fun a c => 10 * a + (c.toNat - 48)) 0

/-- The counter value carried by a booking id. -/
def idNum (s : String) : ℕ := parseDigits (s.data.drop 2)

/-- The state touched by booking creation: the shared global
`booking_counter` and the ids of the bookings appended to `bookings`,
in creation order. -/
structure BookState where
  counter : ℕ
  ids : List String
deriving DecidableEq, Repr

/-- The two code paths that create a booking: the HTTP endpoint
`create_booking_api` (lines 387-389) and the dashboard callback
`confirm_booking` (lines 1059-1061). -/
inductive CreateOp where
  | api
  | form
deriving DecidableEq, Repr

/-- Both creation paths mint `bkId counter`, append the booking and
increment the shared counter by one; they differ only in fields
irrelevant to the id scheme. -/
def createStep (s : BookState) : CreateOp → BookState
  | _ => ⟨s.counter + 1, s.ids ++ [bkId s.counter]⟩

/-- A sequential execution: perform the creations in order. -/
def runCreates (s : BookState) : List CreateOp → BookState
  | [] => s
  | op :: ops => runCreates (createStep s op) ops

/-- `booking_counter = 1`, `bookings = []` (lines 67-68). -/
def initBookState : BookState := ⟨1, []⟩

/-! ## Theorems -/

/-- The billable-hours formula as worded by the spec: `floor(d)` plus one
exactly when `d` has a nonzero fractional part. -/
def billableHoursSpec (d : ℚ) : ℤ :=
  ⌊d⌋ + (if Int.fract d ≠ 0 then 1 else 0)

theorem pymod1_eq_fract (x : ℚ) : pymod1 x = Int.fract x := rfl

theorem billableHoursSpec_eq_ceil (d : ℚ) : billableHoursSpec d = ⌈d⌉ := by
  rw [billableHoursSpec]
  by_cases hf : Int.fract d = 0
  · rw [if_neg (by simpa using hf), add_zero]
    have hd : d = (⌊d⌋ : ℚ) := by
      have := hf
      rw [Int.fract] at this
      linarith
    rw [hd, Int.ceil_intCast, Int.floor_intCast]
  · rw [if_pos hf]
    have hfr : 0 < Int.fract d := lt_of_le_of_ne (Int.fract_nonneg d) (Ne.symm hf)
    have h1 : ⌈d⌉ ≤ ⌊d⌋ + 1 := Int.ceil_le_floor_add_one d
    have h2 : (⌊d⌋ : ℚ) < d := by
      rw [Int.fract] at hfr
      linarith
    have h3 : ⌊d⌋ < ⌈d⌉ := by
      have := h2.trans_le (Int.le_ceil d)
      exact_mod_cast this
    omega

theorem total_hours_eq_billable {x : ℚ} (hx : 0 ≤ x) :
    total_hours x = billableHoursSpec x := by
  rw [total_hours, billableHoursSpec, pyInt, if_pos hx, pymod1_eq_fract]
  congr 1
  rcases lt_or_eq_of_le (Int.fract_nonneg x) with h | h
  · rw [if_pos h, if_pos (Ne.symm (ne_of_lt h))]
  · rw [if_neg (by rw [← h]; exact lt_irrefl 0), if_neg (by rw [← h]; simp)]

theorem total_hours_eq_ceil {x : ℚ} (hx : 0 ≤ x) : total_hours x = ⌈x⌉ := by
  rw [total_hours_eq_billable hx, billableHoursSpec_eq_ceil]

/-- The billing branch of `get_parking_data` for an occupied,
non-maintenance slot with an entry time. -/
theorem makeRow_occupied (slotId : String) (sd : SlotDetails) (now t : ℚ)
    (nowHour : ℕ) (hm : sd.maintenance = false) (hs : sd.status = "occupied")
    (he : sd.entry_time = some t) :
    makeRow slotId sd now nowHour =
      ⟨slotId, sd.zone, "OCCUPIED", (now - t) / 3600,
        (total_hours ((now - t) / 3600) : ℚ) * get_dynamic_rate nowHour,
        (if (now - t) / 3600 > FREE_HOURS
          then ((total_hours ((now - t) / 3600) : ℚ) - FREE_HOURS) * PENALTY_RATE
          else 0),
        sd.is_reserved, sd.maintenance⟩ := by
  rw [makeRow, he, hm]
  simp only [Bool.false_eq_true, if_false, hs, if_pos rfl, if_pos trivial]
  rfl

/-- An occupied non-maintenance slot that entered at time 0
(2 hours 10 minutes before the query instant 7800 used below). -/
def sdEx : SlotDetails :=
  ⟨"occupied", some 0, "Zone-A", some "Car", some "MU-1234", some "C1001",
    false, false⟩

/-- An occupied slot whose recorded entry time (1800 s) lies in the future
of the query instant 0. -/
def sdFut : SlotDetails :=
  ⟨"occupied", some 1800, "Zone-A", some "Car", some "MU-1234", some "C1001",
    false, false⟩

/-- Claim C1: for an occupied slot with entry time and non-negative
duration `d = (now − entryTime)/3600` hours, the overstay fine is `0`
whenever `d ≤ freeHours`, and whenever `d > freeHours` it equals
`(billableHours − freeHours) × penaltyRate` with
`billableHours = ⌊d⌋ + (1 if d has a nonzero fractional part)`. -/
theorem overstay_fine_formula (slotId : String) (sd : SlotDetails) (now t : ℚ)
    (nowHour : ℕ) (hm : sd.maintenance = false) (hs : sd.status = "occupied")
    (he : sd.entry_time = some t) (hd : 0 ≤ now - t) :
    ((now - t) / 3600 ≤ FREE_HOURS → (makeRow slotId sd now nowHour).fine = 0) ∧
    (FREE_HOURS < (now - t) / 3600 →
      (makeRow slotId sd now nowHour).fine =
        ((billableHoursSpec ((now - t) / 3600) : ℚ) - FREE_HOURS) * PENALTY_RATE) := by
  rw [makeRow_occupied slotId sd now t nowHour hm hs he]
  have hq : (0 : ℚ) ≤ (now - t) / 3600 := by positivity
  constructor
  · intro hle
    simp only
    rw [if_neg (not_lt.mpr hle)]
  · intro hgt
    simp only
    rw [if_pos hgt, total_hours_eq_billable hq]

/-- Witness for C1 at the spec's scenario 1: duration 2 h 10 min
(7800 s), non-peak rate; the fine comes out as `(3 − 2) × 100 = 100`. -/
theorem overstay_fine_formula_witness :
    (0 : ℚ) ≤ 7800 - 0 ∧
    FREE_HOURS < ((7800 : ℚ) - 0) / 3600 ∧
    (makeRow "P001" sdEx 7800 12).fine =
      ((billableHoursSpec (((7800 : ℚ) - 0) / 3600) : ℚ) - FREE_HOURS) * PENALTY_RATE :=
  ⟨by norm_num, by norm_num [FREE_HOURS],
    (overstay_fine_formula "P001" sdEx 7800 0 12 rfl rfl rfl (by norm_num)).2
      (by norm_num [FREE_HOURS])⟩

/-- Claim C6: the parking fee of an occupied slot equals
`billableHours × rate`, where `billableHours` is the duration rounded up
to the next whole hour (`⌈d⌉`, no rounding at exact integers) and the
rate is the dynamic rate at the hour of calculation (`nowHour`), not at
entry time — the entry time influences the fee only through the duration. -/
theorem parking_fee_ceiling (slotId : String) (sd : SlotDetails) (now t : ℚ)
    (nowHour : ℕ) (hm : sd.maintenance = false) (hs : sd.status = "occupied")
    (he : sd.entry_time = some t) (hd : 0 ≤ now - t) :
    (makeRow slotId sd now nowHour).revenue =
      (⌈(now - t) / 3600⌉ : ℚ) * get_dynamic_rate nowHour := by
  rw [makeRow_occupied slotId sd now t nowHour hm hs he]
  have hq : (0 : ℚ) ≤ (now - t) / 3600 := by positivity
  simp only
  rw [total_hours_eq_ceil hq]

/-- Witness for C6 at the spec's scenario 1: a slot occupied 2 h 10 min
queried at the non-peak hour 12 (rate 50) is billed `3 × 50 = 150`. -/
theorem parking_fee_ceiling_witness :
    (0 : ℚ) ≤ 7800 - 0 ∧
    (makeRow "P001" sdEx 7800 12).revenue =
      (⌈((7800 : ℚ) - 0) / 3600⌉ : ℚ) * get_dynamic_rate 12 ∧
    (⌈((7800 : ℚ) - 0) / 3600⌉ : ℚ) * get_dynamic_rate 12 = 150 := by
  refine ⟨by norm_num, parking_fee_ceiling "P001" sdEx 7800 0 12 rfl rfl rfl (by norm_num), ?_⟩
  have h1 : ((7800 : ℚ) - 0) / 3600 = 13 / 6 := by norm_num
  have h2 : ⌈(13 / 6 : ℚ)⌉ = 3 := by
    rw [Int.ceil_eq_iff]
    norm_num
  rw [h1, h2]
  simp only [get_dynamic_rate, show is_peak_hour 12 = false from rfl,
    Bool.false_eq_true, if_false]
  norm_num [HOURLY_RATE]

/-- Claim C4 is violated by the code (a code bug): for an occupied slot
whose entry time lies 1800 s in the future of `now`, `get_parking_data`
reports the negative duration −1/2 h (not 0) and a parking fee of 50
(not 0), because `int(-0.5) + (1 if (-0.5 % 1) > 0 else 0) = 1` billable
hour is charged at rate 50. -/
theorem future_entry_negative_billing :
    (makeRow "P001" sdFut 0 12).durationHours = -(1 / 2) ∧
    (makeRow "P001" sdFut 0 12).revenue = 50 ∧
    (makeRow "P001" sdFut 0 12).fine = 0 := by
  rw [makeRow_occupied "P001" sdFut 0 1800 12 rfl rfl rfl]
  have hd : ((0 : ℚ) - 1800) / 3600 = -(1 / 2) := by norm_num
  have hth : total_hours (-(1 / 2) : ℚ) = 1 := by
    rw [total_hours, pyInt, if_neg (by norm_num), pymod1]
    rw [show ⌊(-(1 / 2) : ℚ)⌋ = -1 from by rw [Int.floor_eq_iff]; norm_num]
    rw [show ⌊(-(-(1 / 2)) : ℚ)⌋ = 0 from by rw [Int.floor_eq_iff]; norm_num]
    norm_num
  refine ⟨by simp only [hd], ?_, ?_⟩
  · simp only [hd, hth]
    simp only [get_dynamic_rate, show is_peak_hour 12 = false from rfl,
      Bool.false_eq_true, if_false]
    norm_num [HOURLY_RATE]
  · simp only [hd]
    rw [if_neg (by norm_num [FREE_HOURS])]

theorem is_peak_hour_iff (h : ℕ) :
    is_peak_hour h = true ↔ ∃ p ∈ PEAK_HOURS, p.1 ≤ h ∧ h < p.2 := by
  simp [is_peak_hour, List.any_eq_true]

/-- Claim C7: the dynamic rate is a pure step function of the hour of day:
it is `baseRate × peakMultiplier` exactly when the hour lies in some
configured half-open window `[s, e)` and `baseRate` otherwise; both lower
boundaries (7, 17) are peak and both upper boundaries (10, 20) are not. -/
theorem dynamic_rate_step_function (h : ℕ) :
    get_dynamic_rate h =
      (if ∃ p ∈ PEAK_HOURS, p.1 ≤ h ∧ h < p.2
        then HOURLY_RATE * PEAK_HOUR_MULTIPLIER else HOURLY_RATE) ∧
    (is_peak_hour h = true ↔ ∃ p ∈ PEAK_HOURS, p.1 ≤ h ∧ h < p.2) ∧
    is_peak_hour 7 = true ∧ is_peak_hour 10 = false ∧
    is_peak_hour 17 = true ∧ is_peak_hour 20 = false ∧
    get_dynamic_rate 7 = 75 ∧ get_dynamic_rate 10 = 50 := by
  refine ⟨?_, is_peak_hour_iff h, by decide, by decide, by decide, by decide,
    by simp only [get_dynamic_rate, show is_peak_hour 7 = true from rfl, if_true]
       norm_num [HOURLY_RATE, PEAK_HOUR_MULTIPLIER],
    by simp only [get_dynamic_rate, show is_peak_hour 10 = false from rfl,
         Bool.false_eq_true, if_false]
       norm_num [HOURLY_RATE]⟩
  by_cases hp : is_peak_hour h = true
  · rw [get_dynamic_rate, if_pos hp, if_pos ((is_peak_hour_iff h).mp hp)]
  · rw [get_dynamic_rate, if_neg hp,
      if_neg (fun hc => hp ((is_peak_hour_iff h).mpr hc))]

/-- Claim C8: alert evaluation emits the alerts in the fixed source
priority order (occupancy, overstay, earnings milestone, peak info); the
critical and warning occupancy alerts never coexist; the previous alert
list is discarded and fully replaced, so re-evaluation with identical
statistics is idempotent. -/
theorem alert_evaluation_properties (prev prev' : List Alert) (stats : Stats)
    (nowHour : ℕ) :
    check_alerts prev stats nowHour = check_alerts prev' stats nowHour ∧
    check_alerts (check_alerts prev stats nowHour) stats nowHour =
      check_alerts prev stats nowHour ∧
    List.Pairwise (fun x y => alertPriority x < alertPriority y)
      (check_alerts prev stats nowHour) ∧
    ¬ ((∃ r, Alert.critical r ∈ check_alerts prev stats nowHour) ∧
       (∃ r, Alert.warnOccupancy r ∈ check_alerts prev stats nowHour)) := by
  refine ⟨rfl, rfl, ?_, ?_⟩ <;>
  · unfold check_alerts
    split_ifs <;> simp [alertPriority]

/-- Claim C5 (amended): the aggregated occupancy rate equals
`occupied / totalCapacity × 100` exactly for every slot mix, and the
empty snapshot yields all-zero counts and rates; but the capacity is the
fixed constant 100 and there is no zero-capacity guard — the division at
capacity 0 would raise, see `occupancy_rate_zero_capacity`. -/
theorem occupancy_rate_exact (rows : List Row) :
    (get_statistics rows).occupancy_rate =
      ((rows.filter fun r => r.status == "OCCUPIED").length : ℚ) /
        (TOTAL_SLOTS : ℚ) * 100 ∧
    occupancy_rate_calc (rows.filter fun r => r.status == "OCCUPIED").length
      TOTAL_SLOTS = some ((get_statistics rows).occupancy_rate) ∧
    (get_statistics []).occupied = 0 ∧
    (get_statistics []).available = 0 ∧
    (get_statistics []).occupancy_rate = 0 ∧
    (get_statistics []).total_earnings = 0 ∧
    (get_statistics []).avg_duration = 0 := by
  refine ⟨rfl, ?_, rfl, rfl,
    by norm_num [get_statistics, TOTAL_SLOTS],
    by norm_num [get_statistics], rfl⟩
  rw [occupancy_rate_calc, pydiv, if_neg (by norm_num [TOTAL_SLOTS])]
  rfl

/-- Claim C5 counterexample: with capacity 0 the occupancy-rate
expression `(occupied / totalSlots) * 100` raises `ZeroDivisionError`
(modelled as `none`); the rate is not "defined as 0" by any guard. -/
theorem occupancy_rate_zero_capacity :
    occupancy_rate_calc 5 0 = none ∧ occupancy_rate_calc 5 0 ≠ some 0 := by
  constructor <;> simp [occupancy_rate_calc, pydiv]

/-! ### Checkout lemmas and Claim C3 -/

theorem find?_updateFirst {α} (p : α → Bool) (f : α → α) (l : List α) (b : α)
    (hb : l.find? p = some b) (hf : p (f b) = true) :
    (updateFirst p f l).find? p = some (f b) := by
  induction l with
  | nil => simp at hb
  | cons x xs ih =>
    by_cases hx : p x
    · rw [List.find?_cons_of_pos _ hx] at hb
      injection hb with hb'
      subst hb'
      rw [updateFirst, if_pos hx, List.find?_cons_of_pos _ hf]
    · rw [List.find?_cons_of_neg _ (by simp [hx])] at hb
      rw [updateFirst, if_neg hx, List.find?_cons_of_neg _ (by simp [hx])]
      exact ih hb

theorem lookupSD_updateSD (pd : List (String × SlotDetails)) (key : String)
    (f : SlotDetails → SlotDetails) :
    lookupSD (updateSD pd key f) key = (lookupSD pd key).map f := by
  induction pd with
  | nil => rfl
  | cons kv rest ih =>
    by_cases hk : kv.1 == key
    · rw [updateSD, updateFirst, if_pos hk]
      simp [lookupSD, hk]
    · rw [updateSD, updateFirst, if_neg (by simpa using hk)]
      simp only [lookupSD, hk, Bool.false_eq_true, if_false]
      exact ih

/-- Claim C3 (amended): checkout of an unknown booking id returns
NotFound; checkout of a non-Active booking returns AlreadyCompleted with
the whole state unchanged; a successful checkout marks the booking
completed with its checkout time set and, on the chosen slot, clears the
reservation flag, resets the status to available and clears the vehicle
type and license plate — while `entry_time` and `customer_id` are left
unchanged (the source never touches them; compare
`checkout_leaves_entry_time`). -/
theorem checkout_transitions (st : SysState) (bookingId : String) (now : ℚ) :
    (st.bookings.find? (fun x => x.id == bookingId) = none →
      checkout st bookingId now = (.notFound, st)) ∧
    (∀ b, st.bookings.find? (fun x => x.id == bookingId) = some b →
      b.status ≠ "active" → checkout st bookingId now = (.notActive, st)) ∧
    (∀ b, st.bookings.find? (fun x => x.id == bookingId) = some b →
      b.status = "active" →
      (checkout st bookingId now).1 = .success ∧
      (checkout st bookingId now).2.bookings.find? (fun x => x.id == bookingId) =
        some { b with status := "completed", checkout_time := some now } ∧
      (∀ sd, lookupSD st.parking_data b.slot = some sd →
        lookupSD (checkout st bookingId now).2.parking_data b.slot =
          some { sd with is_reserved := false, status := "available",
                         vehicle_type := none, license_plate := none }) ∧
      (lookupSD st.parking_data b.slot = none →
        (checkout st bookingId now).2.parking_data = st.parking_data)) := by
  refine ⟨?_, ?_, ?_⟩
  · intro h
    rw [checkout, h]
  · intro b hb hs
    simp only [checkout, hb]
    rw [if_pos hs]
  · intro b hb hs
    simp only [checkout, hb]
    rw [if_neg (not_not_intro hs)]
    have hpb := List.find?_some hb
    refine ⟨rfl, ?_, ?_, ?_⟩
    · exact find?_updateFirst _ _ _ _ hb (by simpa using hpb)
    · intro sd hsd
      simp only [hsd]
      rw [lookupSD_updateSD, hsd]
      rfl
    · intro hnone
      simp only [hnone]

/-- An active booking on slot `P001` (as created by the booking flow). -/
def bk0 : Booking := ⟨"BK0001", "Alice", "P001", 2, 100, "active", none⟩

/-- The booked slot: reserved, with a stale entry time and customer id. -/
def sd0 : SlotDetails :=
  ⟨"available", some 5, "Zone-A", some "Car", some "MU-1234", some "C1001",
    true, false⟩

/-- Store with the single active booking `BK0001` on slot `P001`. -/
def st0 : SysState := ⟨[bk0], [("P001", sd0)]⟩

/-- Store whose only booking is already completed. -/
def stDone : SysState :=
  ⟨[⟨"BK0001", "Alice", "P001", 2, 100, "completed", some 1⟩], []⟩

/-- Witness for C3: the three checkout outcomes at concrete stores. -/
theorem checkout_transitions_witness :
    checkout ⟨[], []⟩ "BK0001" 7 = (.notFound, ⟨[], []⟩) ∧
    checkout stDone "BK0001" 7 = (.notActive, stDone) ∧
    (checkout st0 "BK0001" 99).1 = .success ∧
    (checkout st0 "BK0001" 99).2.bookings.find? (fun x => x.id == "BK0001") =
      some { bk0 with status := "completed", checkout_time := some (99 : ℚ) } ∧
    lookupSD (checkout st0 "BK0001" 99).2.parking_data "P001" =
      some { sd0 with is_reserved := false, status := "available",
                      vehicle_type := none, license_plate := none } :=
  have h := (checkout_transitions st0 "BK0001" 99).2.2 bk0 rfl rfl
  ⟨(checkout_transitions ⟨[], []⟩ "BK0001" 7).1 rfl,
   (checkout_transitions stDone "BK0001" 7).2.1 _ rfl (by decide),
   h.1, h.2.1, h.2.2.1 sd0 rfl⟩

/-- Claim C3 counterexample: a successful checkout does **not** clear the
slot's entry time and customer id — after checking out `BK0001` the slot
`P001` still carries `entry_time = 5` and `customer_id = C1001`, contrary
to the claim that checkout clears the occupancy fields including entry
time and customer fields. -/
theorem checkout_leaves_entry_time :
    (checkout st0 "BK0001" 99).1 = .success ∧
    lookupSD (checkout st0 "BK0001" 99).2.parking_data "P001" =
      some ⟨"available", some 5, "Zone-A", none, none, some "C1001",
            false, false⟩ ∧
    (some (5 : ℚ) ≠ (none : Option ℚ)) := by
  refine ⟨rfl, rfl, by simp⟩

/-! ### Claims C2 and C9: slot selection -/

/-- Snapshot in which slot `P001` is available **but reserved** (exactly
the state the booking flow itself produces: `create_booking_api` sets
`is_reserved = True` and leaves `status = 'available'`), and `P002` is
available and unreserved. -/
def pd1 : List (String × SlotDetails) :=
  [("P001", ⟨"available", none, "Zone-A", some "Car", some "MU-9999", none,
      true, false⟩),
   ("P002", ⟨"available", none, "Zone-A", none, none, none, false, false⟩)]

/-- The derived rows of `pd1` (query at instant 0, hour 12). -/
def rows1 : List Row := get_parking_data pd1 0 12

/-- Claim C2 is violated by the code (a code bug): both allocators filter
only on `Status == 'AVAILABLE'`, which excludes occupied and maintenance
slots but **not** reserved ones.  On `rows1` the slot `P001` is reserved,
yet every selection path returns `P001` — a reserved slot is selected,
so the same physical slot can be double-booked. -/
theorem allocator_selects_reserved_slot :
    (lookupSD pd1 "P001").map (fun sd => sd.is_reserved) = some true ∧
    selectSlot rows1 (some "Zone-A") = some ("P001", "Zone-A") ∧
    selectSlot rows1 none = some ("P001", "Zone-A") ∧
    selectSlotConfirm rows1 (some "Zone-A") = some "P001" ∧
    selectSlotConfirm rows1 none = some "P001" := by
  refine ⟨rfl, rfl, rfl, rfl, rfl⟩

theorem foldl_min_eq_self {α} [LinearOrder α] (x : α) (xs : List α)
    (h : ∀ y ∈ xs, x ≤ y) : xs.foldl min x = x := by
  induction xs with
  | nil => rfl
  | cons y ys ih =>
    rw [List.foldl_cons, min_eq_left (h y (List.mem_cons_self y ys))]
    exact ih fun z hz => h z (List.mem_cons_of_mem y hz)

/-- The head of a list sorted strictly by `slotId` is the minimum id. -/
theorem min?_map_slotId (a0 : Row) (rest : List Row)
    (h : ∀ r ∈ rest, a0.slotId < r.slotId) :
    ((a0 :: rest).map fun r => r.slotId).min? = some a0.slotId := by
  rw [List.map_cons]
  show some ((rest.map fun r => r.slotId).foldl min a0.slotId) = some a0.slotId
  congr 1
  refine foldl_min_eq_self _ _ fun y hy => ?_
  obtain ⟨r, hr, rfl⟩ := List.mem_map.mp hy
  exact le_of_lt (h r hr)

/-- Claim C9 (amended): with eligibility as the code implements it
(`Status == 'AVAILABLE'`: occupied and maintenance slots excluded,
reserved slots **not** excluded — see
`zone_preference_reserved_counterexample`), and for a snapshot sorted
strictly by slot id (as the program's `parking_data` dict always is),
the allocator picks the smallest-id available slot of the preferred zone
when that zone has one, and otherwise falls back to the smallest-id
available slot overall. -/
theorem zone_preference_selection (rows : List Row) (z : String)
    (hsorted : List.Pairwise (fun a b : Row => a.slotId < b.slotId) rows) :
    (selectSlot rows (some z)).map Prod.fst =
      ((if ((rows.filter fun r => r.status == "AVAILABLE").filter
              fun r => r.zone == z).isEmpty
          then rows.filter fun r => r.status == "AVAILABLE"
          else (rows.filter fun r => r.status == "AVAILABLE").filter
              fun r => r.zone == z).map fun r => r.slotId).min? := by
  have hA : List.Pairwise (fun a b : Row => a.slotId < b.slotId)
      (rows.filter fun r => r.status == "AVAILABLE") :=
    hsorted.sublist (List.filter_sublist _)
  rcases hav : rows.filter fun r => r.status == "AVAILABLE" with _ | ⟨a0, rest⟩
  · simp only [selectSlot, hav]
    rfl
  · have hA' := hav ▸ hA
    have hamin : ∀ r ∈ rest, a0.slotId < r.slotId :=
      fun r hr => (List.pairwise_cons.mp hA').1 r hr
    have hZ : List.Pairwise (fun a b : Row => a.slotId < b.slotId)
        ((a0 :: rest).filter fun r => r.zone == z) :=
      hA'.sublist (List.filter_sublist _)
    rcases hzf : (a0 :: rest).filter fun r => r.zone == z with _ | ⟨z0, ztl⟩
    · simp only [selectSlot, hav, hzf, List.isEmpty_nil, if_true,
        Option.map_some']
      rw [min?_map_slotId a0 rest hamin]
    · have hZ' := hzf ▸ hZ
      have hzmin : ∀ r ∈ ztl, z0.slotId < r.slotId :=
        fun r hr => (List.pairwise_cons.mp hZ').1 r hr
      simp only [selectSlot, hav, hzf, List.isEmpty_cons, Bool.false_eq_true,
        if_false, Option.map_some']
      rw [min?_map_slotId z0 ztl hzmin]

/-- Witness for C9 at the snapshot `rows1` with preference `Zone-A`. -/
theorem zone_preference_selection_witness :
    List.Pairwise (fun a b : Row => a.slotId < b.slotId) rows1 ∧
    (selectSlot rows1 (some "Zone-A")).map Prod.fst =
      ((if ((rows1.filter fun r => r.status == "AVAILABLE").filter
              fun r => r.zone == "Zone-A").isEmpty
          then rows1.filter fun r => r.status == "AVAILABLE"
          else (rows1.filter fun r => r.status == "AVAILABLE").filter
              fun r => r.zone == "Zone-A").map fun r => r.slotId).min? := by
  have hs : List.Pairwise (fun a b : Row => a.slotId < b.slotId) rows1 := by
    simp only [rows1, pd1, get_parking_data, List.map_cons, List.map_nil]
    refine List.Pairwise.cons (fun b hb => ?_) (List.pairwise_singleton _ _)
    rw [List.mem_singleton] at hb
    subst hb
    show ("P001" : String) < "P002"
    rw [String.lt_iff_toList_lt]
    decide
  exact ⟨hs, zone_preference_selection rows1 "Zone-A" hs⟩

/-- Claim C9 counterexample: with eligibility as the spec defines it
(available, not reserved, not in maintenance) the smallest-id eligible
Zone-A slot of `rows1` is `P002`, but the allocator returns `P001`, a
reserved slot — so the claim as stated is false on the code. -/
theorem zone_preference_reserved_counterexample :
    ((rows1.filter specEligible).filter fun r => r.zone == "Zone-A").map
        (fun r => r.slotId) = ["P002"] ∧
    (selectSlot rows1 (some "Zone-A")).map Prod.fst = some "P001" ∧
    some "P001" ≠ some "P002" := by
  refine ⟨rfl, rfl, by decide⟩

/-! ### Claim C10: booking id uniqueness -/

theorem toNat_digitChar : ∀ d : ℕ, d < 10 → (Nat.digitChar d).toNat - 48 = d := by
  decide

theorem parseDigits_go (L : List ℕ) (h : ∀ d ∈ L, d < 10) (a : ℕ) :
    (L.reverse.map Nat.digitChar).foldl (fun acc c => 10 * acc + (c.toNat - 48)) a
      = a * 10 ^ L.length + Nat.ofDigits 10 L := by
  induction L generalizing a with
  | nil => simp
  | cons d L ih =>
    rw [List.reverse_cons, List.map_append, List.foldl_append,
      ih (fun e he => h e (List.mem_cons_of_mem d he))]
    simp only [List.map_cons, List.map_nil, List.foldl_cons, List.foldl_nil]
    rw [toNat_digitChar d (h d (List.mem_cons_self d L)), Nat.ofDigits_cons,
      List.length_cons, pow_succ]
    ring

theorem parseDigits_decRepr (n : ℕ) : parseDigits (decRepr n) = n := by
  rw [decRepr]
  by_cases h0 : n = 0
  · subst h0
    rw [if_pos rfl]
    rfl
  · rw [if_neg h0]
    have := parseDigits_go (Nat.digits 10 n)
      (fun d hd => Nat.digits_lt_base (by norm_num) hd) 0
    simpa [parseDigits, Nat.ofDigits_digits] using this

theorem parseDigits_replicate_zero (k : ℕ) (l : List Char) :
    parseDigits (List.replicate k '0' ++ l) = parseDigits l := by
  induction k with
  | zero => simp
  | succ k ih =>
    rw [List.replicate_succ, List.cons_append]
    show (List.replicate k '0' ++ l).foldl
      (fun acc c => 10 * acc + (c.toNat - 48)) (10 * 0 + ('0'.toNat - 48)) = _
    rw [show (10 * 0 + ('0'.toNat - 48)) = 0 from rfl]
    exact ih

theorem parseDigits_zfill (w : ℕ) (l : List Char) :
    parseDigits (zfill w l) = parseDigits l :=
  parseDigits_replicate_zero _ _

/-- Reading the counter back out of a generated booking id. -/
theorem idNum_bkId (n : ℕ) : idNum (bkId n) = n := by
  show parseDigits ((['B', 'K'] ++ zfill 4 (decRepr n)).drop 2) = n
  rw [show (['B', 'K'] ++ zfill 4 (decRepr n)).drop 2 = zfill 4 (decRepr n)
      from rfl,
    parseDigits_zfill]
  exact parseDigits_decRepr n

theorem bkId_inj : Function.Injective bkId := by
  intro m n h
  have h2 := congrArg idNum h
  rwa [idNum_bkId, idNum_bkId] at h2

theorem runCreates_eq (ops : List CreateOp) (s : BookState) :
    (runCreates s ops).counter = s.counter + ops.length ∧
    (runCreates s ops).ids =
      s.ids ++ (List.range ops.length).map fun i => bkId (s.counter + i) := by
  induction ops generalizing s with
  | nil => simp [runCreates]
  | cons op ops ih =>
    rw [runCreates]
    obtain ⟨h1, h2⟩ := ih (createStep s op)
    constructor
    · rw [h1]
      show s.counter + 1 + ops.length = s.counter + (op :: ops).length
      rw [List.length_cons]
      omega
    · rw [h2]
      show (s.ids ++ [bkId s.counter]) ++
          (List.range ops.length).map (fun i => bkId (s.counter + 1 + i)) =
        s.ids ++ (List.range (ops.length + 1)).map fun i => bkId (s.counter + i)
      rw [List.append_assoc, List.singleton_append, List.range_succ_eq_map,
        List.map_cons, List.map_map]
      have hfun : ((fun i => bkId (s.counter + i)) ∘ Nat.succ) =
          fun i => bkId (s.counter + 1 + i) := by
        funext i
        show bkId (s.counter + (i + 1)) = bkId (s.counter + 1 + i)
        congr 1
        omega
      rw [hfun]
      simp

/-- Claim C10: every booking created through the HTTP endpoint or the
dashboard form gets the id `"BK"` + the 4-digit zero-padded value of the
single shared counter (initially 1), which is incremented by one on each
creation; so in every sequential execution the ids are exactly
`bkId 1, bkId 2, …`, pairwise distinct, and later bookings carry strictly
larger counter values. -/
theorem booking_ids_distinct_increasing (ops : List CreateOp) :
    (runCreates initBookState ops).counter = 1 + ops.length ∧
    (runCreates initBookState ops).ids =
      (List.range ops.length).map (fun i => bkId (1 + i)) ∧
    bkId 1 = "BK0001" ∧
    (runCreates initBookState ops).ids.Nodup ∧
    List.Pairwise (fun a b => idNum a < idNum b)
      (runCreates initBookState ops).ids := by
  obtain ⟨h1, h2⟩ := runCreates_eq ops initBookState
  have hids : (runCreates initBookState ops).ids =
      (List.range ops.length).map fun i => bkId (1 + i) := by
    rw [h2]
    rfl
  refine ⟨h1, hids, ?_, ?_, ?_⟩
  · rw [bkId, decRepr, if_neg one_ne_zero,
      show Nat.digits 10 1 = [1] from by simp]
    rfl
  · rw [hids]
    have hinj : Function.Injective fun i => bkId (1 + i) := by
      intro a b hab
      have := bkId_inj hab
      omega
    exact (List.nodup_range _).map hinj
  · rw [hids]
    refine List.Pairwise.map _ (fun a b hab => ?_) (List.pairwise_lt_range _)
    rw [idNum_bkId, idNum_bkId]
    omega

end SmartParking
